import Mathlib

/-!
Verification development for the trafficwatch violation-detection, tracking
and citation pipeline (`backend/server.py`, `backend/video_processing.py`,
`backend/process_video_worker.py`).

The Python source is shallowly embedded below.  Conventions:

* Geometric quantities are idealised over `ℚ` (the Python code computes with
  IEEE floats; we model the intended real-number semantics).  Every square
  root the code takes (`np.sqrt`) is only ever *compared* against a constant
  or fed through a formula whose output is again only compared/squared, so
  each use is translated to its exact squared form:
  `sqrt a < c  ↔  a < c²` (for `c > 0`, `a ≥ 0`), which is an equivalence
  over the reals.  Comments at each definition point at the source lines.
* Python `dict.get(k)` / optional fields become `Option`; Python truthiness
  of a numeric value `q` is `q ≠ 0`.
* Mongo collections touched by a function are modelled as the lists of
  records the function inserts; `insert_one` is an append.
-/

namespace TrafficWatch

/-! ### Plate text cleaning and validation (`server.py` 65-93) -/

/-- Characters kept by `re.sub(r'[^A-Za-z0-9\- ]', '', text)`
(`server.py` line 69). -/
def isKeptChar (c : Char) : Bool :=
  (('A' ≤ c && c ≤ 'Z') || ('a' ≤ c && c ≤ 'z') || ('0' ≤ c && c ≤ '9')
    || c = '-' || c = ' ')

/-- Python `str.strip()` on the character list (leading/trailing spaces; after
the keep-filter the only whitespace left is `' '`). -/
def stripSpaces (cs : List Char) : List Char :=
  (((cs.dropWhile (· = ' ')).reverse).dropWhile (· = ' ')).reverse

/-- Helper for `collapseSpaces`: the flag records whether the previous kept
character was a space (so further spaces of the same run are dropped). -/
def collapseAux : Bool → List Char → List Char
  | _, [] => []
  | prevSpace, c :: rest =>
    if c = ' ' then
      if prevSpace then collapseAux true rest
      else ' ' :: collapseAux true rest
    else c :: collapseAux false rest

/-- Model of `re.sub(r'\s+', ' ', cleaned)` (`server.py` line 71): collapse every
maximal run of whitespace to a single space.  Only `' '` can occur here. -/
def collapseSpaces (cs : List Char) : List Char :=
  collapseAux false cs

/-- Embedding of `_clean_plate_text` (`server.py` lines 65-80): keep `[A-Za-z0-9\- ]`,
strip, collapse whitespace, strip again, require length ≥ 4, uppercase.
Returns `none` for empty input or a too-short result. -/
def cleanPlateText (text : String) : Option String :=
  if text = "" then none
  else
    let cleaned := stripSpaces (collapseSpaces (stripSpaces
      (text.toList.filter isKeptChar)))
    if 4 ≤ cleaned.length then
      some (String.mk (cleaned.map Char.toUpper))
    else none

/-- Class `[A-Z]` of the plate pattern (ASCII uppercase). -/
def isUpperLetter (c : Char) : Bool := 'A' ≤ c && c ≤ 'Z'

/-- Class `\d` of the plate pattern (ASCII digit). -/
def isDigitChar (c : Char) : Bool := '0' ≤ c && c ≤ '9'

/-- Matcher for `^[A-Z]{2}\d{2}[A-Z]{1,2}\d{3,4}$` (`server.py` line 92).
Since a letter is never a digit, the regex's backtracking resolves
deterministically: two letters, two digits, then the maximal run of letters
must have length 1 or 2 and the remainder must be 3 or 4 digits. -/
def matchesPlatePattern (cs : List Char) : Bool :=
  match cs with
  | a :: b :: c :: d :: rest =>
    isUpperLetter a && isUpperLetter b && isDigitChar c && isDigitChar d &&
      (let letters := rest.takeWhile isUpperLetter
       let digits := rest.dropWhile isUpperLetter
       (letters.length = 1 || letters.length = 2) &&
         digits.all isDigitChar &&
         (digits.length = 3 || digits.length = 4))
  | _ => false

/-- Embedding of `_validate_indian_plate_format` (`server.py` lines 83-93): drop all
whitespace (`re.sub(r'\s+', '', text)`), then match the anchored pattern. -/
def validateIndianPlateFormat (text : String) : Bool :=
  if text = "" then false
  else matchesPlatePattern (text.toList.filter (· ≠ ' '))

/-! ### Fine table and challan persistence (`server.py` 266-355, 2692-2702,
2763-2777) -/

/-- Embedding of `get_fine_amount` (`server.py` lines 2692-2702). -/
def getFineAmount (violationType : String) : ℚ :=
  if violationType = "no_helmet" then 500
  else if violationType = "cell_phone" then 1000
  else if violationType = "phone" then 1000
  else if violationType = "mobile" then 1000
  else if violationType = "overspeeding" then 1500
  else if violationType = "wrong_way" then 2000
  else 500

/-- One persisted challan document (the fields relevant to idempotency). -/
structure ChallanRec where
  violation_id : String
  user_id : String
  fine_amount : ℚ
  deriving DecidableEq, Repr

/-- Embedding of `create_challan_for_violation` (`server.py` lines 266-355), restricted to
its effect on the `db.challans` collection: the function builds a fresh
`Challan` and runs `await db.challans.insert_one(challan_dict)` (line 325)
unconditionally — there is no lookup of an existing challan for the same
violation id anywhere in the function. -/
def createChallanForViolation (challans : List ChallanRec)
    (violationId userId violationType : String) : List ChallanRec :=
  challans ++ [⟨violationId, userId, getFineAmount violationType⟩]

/-- The challan-creation part of the `generate_challan` endpoint
(`server.py` lines 2763-2777): `find_one({"violation_id": .., "user_id": ..})`
first and insert only when no record exists. -/
def generateChallanRecord (challans : List ChallanRec)
    (violationId userId violationType : String) : List ChallanRec :=
  if challans.any (fun c => c.violation_id = violationId && c.user_id = userId)
  then challans
  else challans ++ [⟨violationId, userId, getFineAmount violationType⟩]

/-- Number of persisted challan records for a violation id. -/
def challanCountFor (challans : List ChallanRec) (violationId : String) : ℕ :=
  (challans.filter (fun c => c.violation_id = violationId)).length

/-! ### String helpers: Python `k in s` and `s.lower()` -/

/-- Whether `hay` starts with `needle` (character lists). -/
def charListStartsWith : List Char → List Char → Bool
  | _, [] => true
  | [], _ :: _ => false
  | a :: as, b :: bs => a = b && charListStartsWith as bs

/-- Whether `needle` occurs as a contiguous substring of `hay` (character lists). -/
def charListContains : List Char → List Char → Bool
  | [], needle => needle.isEmpty
  | c :: rest, needle =>
    charListStartsWith (c :: rest) needle || charListContains rest needle

/-- Python `needle in hay` on strings. -/
def substrOf (needle hay : String) : Bool :=
  charListContains hay.toList needle.toList

/-- Python `s.lower()` (the class names here are ASCII). -/
def lowerStr (s : String) : String :=
  String.mk (s.toList.map Char.toLower)

/-- Model of `any(k in class_name_lower for k in ('bike', 'motor', 'scooter'))`
(`server.py` lines 875, 938; also the photo/transient vehicle filter at
lines 1631, 1254). -/
def isBikeClass (clsLower : String) : Bool :=
  substrOf "bike" clsLower || substrOf "motor" clsLower
    || substrOf "scooter" clsLower

/-- Model of `any(k in class_name_lower for k in ('car', 'auto', 'vehicle'))`
(`server.py` line 940). -/
def isCarClass (clsLower : String) : Bool :=
  substrOf "car" clsLower || substrOf "auto" clsLower
    || substrOf "vehicle" clsLower

/-- Model of `any(k in oname for k in ('triple', 'triple_riding', 'triple_ride'))`
(`server.py` lines 920, 1304, 1834). -/
def isTripleName (clsLower : String) : Bool :=
  substrOf "triple" clsLower || substrOf "triple_riding" clsLower
    || substrOf "triple_ride" clsLower

/-! ### Geometry (idealised over `ℚ`; see file header for the treatment of
`np.sqrt`) -/

/-- A bounding box `(x1, y1, x2, y2)`. -/
structure BBox where
  x1 : ℚ
  y1 : ℚ
  x2 : ℚ
  y2 : ℚ
  deriving DecidableEq, Repr

/-- Computed center `center_x = (x1 + x2) / 2`, `center_y = (y1 + y2) / 2`
(`server.py` lines 808-809, 848-849, 1619-1620). -/
def centerOf (b : BBox) : ℚ × ℚ :=
  ((b.x1 + b.x2) / 2, (b.y1 + b.y2) / 2)

/-- Squared Euclidean distance between two points.  The code computes
`np.sqrt` of this and only ever compares the root against a positive
constant `c`; `sqrt d < c ↔ d < c²` is used at every such comparison. -/
def pointDistSq (p q : ℚ × ℚ) : ℚ :=
  (p.1 - q.1) ^ 2 + (p.2 - q.2) ^ 2

/-- Intersection-over-union of two boxes, exactly the `bbox_iou` helper /
inline IoU computation (`server.py` lines 888-904, 1799-1810, 1273-1284):
clamped intersection area over union area, `0` when the union is empty. -/
def iouQ (b1 b2 : BBox) : ℚ :=
  let xA := max b1.x1 b2.x1
  let yA := max b1.y1 b2.y1
  let xB := min b1.x2 b2.x2
  let yB := min b1.y2 b2.y2
  let interArea := max 0 (xB - xA) * max 0 (yB - yA)
  let area1 := max 0 (b1.x2 - b1.x1) * max 0 (b1.y2 - b1.y1)
  let area2 := max 0 (b2.x2 - b2.x1) * max 0 (b2.y2 - b2.y1)
  let denom := area1 + area2 - interArea
  if 0 < denom then interArea / denom else 0

/-- A detection as the pipeline stores it: class name, box, confidence.
The stored `center` field always equals `centerOf bbox`, so it is computed
rather than carried. -/
structure RawDet where
  cls : String
  bbox : BBox
  conf : ℚ
  deriving DecidableEq, Repr

/-! ### Calibration resolution (`server.py` lines 750-769) -/

/-- The dynamically-typed `calibration['reference_distance']` value read from
Mongo: either a stored number `q` (Python truthiness `q ≠ 0`, `float()`
returns `q`), or a non-numeric value carrying its own truthiness and the
result of `float()` on it (`none` when `float` raises). -/
inductive RefDistVal where
  | num (q : ℚ)
  | raw (truthy : Bool) (parsed : Option ℚ)
  deriving DecidableEq, Repr

/-- Python truthiness of the stored reference distance (the guard
`calibration.get('reference_distance')` at `server.py` line 755). -/
def refTruthy : RefDistVal → Bool
  | .num q => q ≠ 0
  | .raw t _ => t

/-- Result of `float(calibration['reference_distance'])` (`server.py` line 761):
`none` models the `except` branch. -/
def refParse : RefDistVal → Option ℚ
  | .num q => some q
  | .raw _ p => p

/-- A calibration record.  `pixelPointsDistSq` is the squared pixel distance
between the two calibration points (line 757 takes its root). -/
structure Calibration where
  reference_distance : Option RefDistVal
  pixelPointsDistSq : ℚ
  speed_limit : Option ℚ
  deriving DecidableEq, Repr

/-- The documented default `pixels_per_meter = 50` (`server.py` line 752). -/
def DEFAULT_PPM : ℚ := 50

/-- Outcome of calibration resolution: the square of the resolved
`pixels_per_meter`, and whether a `logger.warning` about an invalid
reference distance fired. -/
structure CalibResolution where
  ppmSq : ℚ
  warned : Bool
  deriving DecidableEq, Repr

/-- Embedding of `server.py` lines 750-769.  `pixels_per_meter = 50` by default; the
calibration is used only when the record exists and
`calibration.get('reference_distance')` is truthy; then `float()` is
attempted (`except` → warning, keep default) and the distance must be
`> 0` (otherwise warning, keep default).  `ppm = pixel_distance / ref_dist`,
so `ppm² = pixelPointsDistSq / ref_dist²`.  Note that a stored numeric `0`
is falsy, so it skips the whole block silently — without any warning. -/
def resolveCalibration : Option Calibration → CalibResolution
  | none => ⟨DEFAULT_PPM ^ 2, false⟩
  | some c =>
    match c.reference_distance with
    | none => ⟨DEFAULT_PPM ^ 2, false⟩
    | some rv =>
      if refTruthy rv then
        match refParse rv with
        | none => ⟨DEFAULT_PPM ^ 2, true⟩
        | some rd =>
          if 0 < rd then ⟨c.pixelPointsDistSq / rd ^ 2, false⟩
          else ⟨DEFAULT_PPM ^ 2, true⟩
      else ⟨DEFAULT_PPM ^ 2, false⟩

/-! ### Speed estimation (`server.py` lines 855-868) -/

/-- One entry of a track's position window: `(center_x, center_y,
frame_idx)` (`server.py` line 852). -/
structure Pos where
  x : ℚ
  y : ℚ
  frame : ℚ
  deriving DecidableEq, Repr

/-- Squared pixel displacement between two window entries (line 862 takes
its root). -/
def posDistSq (f l : Pos) : ℚ :=
  (l.x - f.x) ^ 2 + (l.y - f.y) ^ 2

/-- The square of the estimated speed in km/h, from `server.py` lines
855-868: valid only when the window holds ≥ 5 positions; takes the oldest
(`positions[0]`) and newest (`positions[-1]`) entries, and when
`time_diff = Δframe / fps > 0` returns
`speed = (sqrt(posDistSq) / ppm / time_diff) * 3.6`, i.e.
`speed² = posDistSq · (18/5)² / (ppm² · time_diff²)`.  Returns `none` when
the code leaves `speed = None`. -/
def speedSqKmh (positions : List Pos) (ppmSq fps : ℚ) : Option ℚ :=
  if 5 ≤ positions.length then
    match positions.head?, positions.getLast? with
    | some f, some l =>
      let timeDiff := (l.frame - f.frame) / fps
      if 0 < timeDiff then
        some (posDistSq f l * (18 / 5) ^ 2 / (ppmSq * timeDiff ^ 2))
      else none
    | _, _ => none
  else none

/-- Exact translation of `if speed and speed > limit` (`server.py` line 946)
to the squared representation: with `speed = sqrt q ≥ 0`, truthiness of
`speed` is `q ≠ 0`, and `sqrt q > limit ↔ limit < 0 ∨ limit² < q`. -/
def speedTruthyGT (speedSq? : Option ℚ) (limit : ℚ) : Bool :=
  match speedSq? with
  | none => false
  | some q => q ≠ 0 && (limit < 0 || limit ^ 2 < q)

/-! ### Effective speed-limit resolution (`server.py` lines 930-945) -/

/-- The `user_settings` document fields the limit resolution reads
(`dict.get` with a default is presence-based, hence `Option`). -/
structure UserSettings where
  speed_limit : Option ℚ
  bike_speed_limit : Option ℚ
  car_speed_limit : Option ℚ
  deriving DecidableEq, Repr

/-- Embedding of `server.py` lines 930-945, as written:
`calib_speed_limit = calibration.get('speed_limit') if calibration else None`
(truthiness-tested), `base_limit = calib_speed_limit if calib_speed_limit
else (user_settings.get('speed_limit', 20) if user_settings else 20)`,
`bike_limit = user_settings.get('bike_speed_limit', base_limit)` (and
analogously for cars), then selected by the detected class keywords. -/
def effectiveSpeedLimit (calib? : Option Calibration)
    (us? : Option UserSettings) (clsLower : String) : ℚ :=
  let calibLimit? : Option ℚ :=
    match calib? with
    | none => none
    | some c =>
      match c.speed_limit with
      | none => none
      | some q => if q = 0 then none else some q
  let baseLimit :=
    match calibLimit? with
    | some q => q
    | none =>
      match us? with
      | some us => us.speed_limit.getD 20
      | none => 20
  let bikeLimit :=
    match us? with
    | some us => us.bike_speed_limit.getD baseLimit
    | none => baseLimit
  let carLimit :=
    match us? with
    | some us => us.car_speed_limit.getD baseLimit
    | none => baseLimit
  if isBikeClass clsLower then bikeLimit
  else if isCarClass clsLower then carLimit
  else baseLimit

/-- Per-class-then-global fallback used by `claimedSpeedLimit` when no
calibration limit applies. -/
def claimedFallbackLimit (us? : Option UserSettings) (clsLower : String) : ℚ :=
  let perClass? : Option ℚ :=
    match us? with
    | none => none
    | some us =>
      if isBikeClass clsLower then us.bike_speed_limit
      else if isCarClass clsLower then us.car_speed_limit
      else none
  match perClass? with
  | some q => q
  | none =>
    match us? with
    | some us => us.speed_limit.getD 20
    | none => 20

/-- The limit resolution as the SPEC sentence words it (for comparison with
`effectiveSpeedLimit`): "calibration-specified limit (if present) > per-
vehicle-class user setting (bike/car) > global user default > hardcoded
default (20 km/h)". -/
def claimedSpeedLimit (calib? : Option Calibration)
    (us? : Option UserSettings) (clsLower : String) : ℚ :=
  match calib? with
  | some c =>
    match c.speed_limit with
    | some q => if q = 0 then claimedFallbackLimit us? clsLower else q
    | none => claimedFallbackLimit us? clsLower
  | none => claimedFallbackLimit us? clsLower

/-- The limit resolution as the AMENDED claim words it: per-vehicle-class
user setting first for bike/car classes, then the (truthy) calibration
limit, then the global user setting, then the hardcoded 20. -/
def amendedSpeedLimit (calib? : Option Calibration)
    (us? : Option UserSettings) (clsLower : String) : ℚ :=
  let calibThenGlobal : ℚ :=
    match calib?.bind (fun c => c.speed_limit) with
    | some q =>
      if q = 0 then
        match us? with
        | some us => us.speed_limit.getD 20
        | none => 20
      else q
    | none =>
      match us? with
      | some us => us.speed_limit.getD 20
      | none => 20
  let perClass? : Option ℚ :=
    match us? with
    | none => none
    | some us =>
      if isBikeClass clsLower then us.bike_speed_limit
      else if isCarClass clsLower then us.car_speed_limit
      else none
  match perClass? with
  | some q => q
  | none => calibThenGlobal

/-! ### Video-mode frame detection categorisation (`server.py` lines
799-835).  The class name is lowercased at line 807 before categorising. -/

/-- Categories of `frame_detections` in `process_video_background`. -/
inductive VideoCat where
  | helmets | noHelmets | vehicles | riders | other
  deriving DecidableEq, Repr

/-- The exact-membership list at `server.py` line 824. -/
def videoVehicleClassList : List String :=
  ["bike", "motorcycle", "bicycle", "vehicle", "car", "auto"]

/-- The `if/elif` chain at `server.py` lines 812-835 (input already
lowercased). -/
def videoCategorize (clsLower : String) : VideoCat :=
  if substrOf "helmet" clsLower && !(substrOf "no" clsLower) then .helmets
  else if substrOf "no_helmet" clsLower || substrOf "nohelmet" clsLower
      || clsLower = "no helmet" then .noHelmets
  else if videoVehicleClassList.contains clsLower then .vehicles
  else if clsLower = "rider" then .riders
  else .other

/-- The list `frame_detections['no_helmets']` built from the frame's raw detections. -/
def videoNoHelmets (dets : List RawDet) : List RawDet :=
  dets.filter (fun d => videoCategorize d.cls = .noHelmets)

/-! ### Video-mode per-track processing (`server.py` lines 843-966) -/

/-- Per-track rolling state (`tracker_data[track_id]`, line 748): position
deque of capacity 30, last class, recorded violation-type set (modelled as
the list of inserted members; insertion is guarded by membership, matching
Python set semantics). -/
structure TrackState where
  positions : List Pos
  cls : Option String
  violations : List String
  deriving DecidableEq, Repr

/-- Fresh `defaultdict` entry (`server.py` line 748). -/
def initTrackState : TrackState := ⟨[], none, []⟩

/-- Model of `deque(maxlen=30).append`: append, evicting the oldest entries past
capacity 30. -/
def pushBounded (ps : List Pos) (p : Pos) : List Pos :=
  let ps' := ps ++ [p]
  if 30 < ps'.length then ps'.drop (ps'.length - 30) else ps'

/-- What one tracked box sees in one processed frame.  `tripleScope` is the
binding of the name `detected_objects` visible at `server.py` line 918: in
`process_video_background` that name is never assigned (it is local only to
`process_photo_background` and `process_frame_transient`), so evaluating the
`for` loop raises `NameError`, which the bare `except` at line 927 swallows;
`none` models that unbound state, `some objs` a hypothetical scope in which
the name is bound. -/
structure VideoFrameObs where
  cls : String
  bbox : BBox
  conf : ℚ
  frame : ℚ
  frameDets : List RawDet
  tripleScope : Option (List RawDet)
  deriving Repr

/-- The video-mode no-helmet match (`server.py` line 907):
`iou_val > 0.01 or dist < 200`, with `dist` the center distance. -/
def matchNHVideo (vBBox : BBox) (nh : RawDet) : Bool :=
  1 / 100 < iouQ vBBox nh.bbox
    || pointDistSq (centerOf vBBox) (centerOf nh.bbox) < 200 ^ 2

/-- Whether the no-helmet rule fires for this tracked box on this frame
(`server.py` lines 873-911): class must contain a bike keyword, `no_helmet`
must not be recorded for the track, and some explicit no-helmet detection of
the frame must match by IoU or center distance. -/
def nhFires (ts : TrackState) (obs : VideoFrameObs) : Bool :=
  isBikeClass (lowerStr obs.cls) && !(ts.violations.contains "no_helmet")
    && (videoNoHelmets obs.frameDets).any (matchNHVideo obs.bbox)

/-- Track violation set after the no-helmet check of this frame. -/
def violAfterNH (ts : TrackState) (obs : VideoFrameObs) : List String :=
  if nhFires ts obs then ts.violations ++ ["no_helmet"] else ts.violations

/-- Whether the triple-riding block fires (`server.py` lines 916-928).  The
block sits inside the same
`if is_bike and 'no_helmet' not in tracker_data[track_id]['violations']`
guard as the no-helmet loop; its body iterates `detected_objects`, a name
that `process_video_background` never binds (see `VideoFrameObs`), and fires
on a detection whose lowercased class contains a triple keyword within 300px
of the vehicle center, if `triple_riding` is not yet recorded. -/
def tripleFires (ts : TrackState) (obs : VideoFrameObs) : Bool :=
  isBikeClass (lowerStr obs.cls) && !(ts.violations.contains "no_helmet")
    && (match obs.tripleScope with
        | none => false
        | some objs =>
          !((violAfterNH ts obs).contains "triple_riding")
            && objs.any (fun o => isTripleName (lowerStr o.cls)
                && pointDistSq (centerOf obs.bbox) (centerOf o.bbox) < 300 ^ 2))

/-- Track violation set after the triple-riding check of this frame. -/
def violAfterTriple (ts : TrackState) (obs : VideoFrameObs) : List String :=
  if tripleFires ts obs then violAfterNH ts obs ++ ["triple_riding"]
  else violAfterNH ts obs

/-- The position window after this frame's `tracker_data[...].append`
(`server.py` line 852). -/
def trackPositions (ts : TrackState) (obs : VideoFrameObs) : List Pos :=
  pushBounded ts.positions
    ⟨(centerOf obs.bbox).1, (centerOf obs.bbox).2, obs.frame⟩

/-- Squared estimated speed for this tracked box on this frame
(`server.py` lines 855-868). -/
def trackSpeedSq (ts : TrackState) (obs : VideoFrameObs)
    (ppmSq fps : ℚ) : Option ℚ :=
  speedSqKmh (trackPositions ts obs) ppmSq fps

/-- Whether the overspeeding rule fires (`server.py` lines 930-948):
`if speed and speed > limit and 'overspeeding' not in tracker_data[...]`. -/
def overspeedFires (calib? : Option Calibration) (us? : Option UserSettings)
    (ppmSq fps : ℚ) (ts : TrackState) (obs : VideoFrameObs) : Bool :=
  speedTruthyGT (trackSpeedSq ts obs ppmSq fps)
      (effectiveSpeedLimit calib? us? (lowerStr obs.cls))
    && !((violAfterTriple ts obs).contains "overspeeding")

/-- One tracked box of one processed frame (`server.py` lines 843-966):
updates the track state (position push, class, recorded violation types) and
returns `violations_to_save` — the list of Violation records persisted for
this box, in insertion order (no-helmet, then triple-riding, then
overspeeding).  The dedup check and mark happen in this same synchronous
step, before the emitted list (the persisted records) is produced. -/
def videoTrackStep (calib? : Option Calibration) (us? : Option UserSettings)
    (ppmSq fps : ℚ) (ts : TrackState) (obs : VideoFrameObs) :
    TrackState × List String :=
  let viol2 := violAfterTriple ts obs
  let viol3 :=
    if overspeedFires calib? us? ppmSq fps ts obs
    then viol2 ++ ["overspeeding"] else viol2
  let emitted :=
    (if nhFires ts obs then ["no_helmet"] else [])
      ++ (if tripleFires ts obs then ["triple_riding"] else [])
      ++ (if overspeedFires calib? us? ppmSq fps ts obs
          then ["overspeeding"] else [])
  (⟨trackPositions ts obs, some obs.cls, viol3⟩, emitted)

/-- The sequential frame loop, restricted to one track: fold
`videoTrackStep` over the frames in which the track appears, accumulating
every persisted violation record in order.  Sequential by construction —
`process_video_background` runs this inline in its single `while` loop. -/
def videoTrackRun (calib? : Option Calibration) (us? : Option UserSettings)
    (ppmSq fps : ℚ) : TrackState → List VideoFrameObs →
    TrackState × List String
  | ts, [] => (ts, [])
  | ts, obs :: rest =>
    let step := videoTrackStep calib? us? ppmSq fps ts obs
    let next := videoTrackRun calib? us? ppmSq fps step.1 rest
    (next.1, step.2 ++ next.2)

/-! ### Single-photo processing (`server.py` lines 1581-1978) -/

/-- Categories of `process_photo_background`'s grouping loop
(`server.py` lines 1629-1638); vehicles are keyword-matched there, unlike
the exact-membership video list. -/
inductive PhotoCat where
  | vehicle | helmet | noHelmet | phone | other
  deriving DecidableEq, Repr

/-- The `if/elif` chain at `server.py` lines 1629-1638 (applied to the
lowercased class name). -/
def photoCategorize (clsLower : String) : PhotoCat :=
  if isBikeClass clsLower then .vehicle
  else if substrOf "helmet" clsLower && !(substrOf "no" clsLower) then .helmet
  else if substrOf "no_helmet" clsLower || substrOf "nohelmet" clsLower
      || clsLower = "no helmet" then .noHelmet
  else if substrOf "phone" clsLower || substrOf "cell" clsLower
      || substrOf "mobile" clsLower then .phone
  else .other

/-- The photo's vehicle-like detections. -/
def photoVehicles (dets : List RawDet) : List RawDet :=
  dets.filter (fun d => photoCategorize (lowerStr d.cls) = .vehicle)

/-- The photo's explicit no-helmet detections. -/
def photoNoHelmets (dets : List RawDet) : List RawDet :=
  dets.filter (fun d => photoCategorize (lowerStr d.cls) = .noHelmet)

/-- The photo's phone-like detections. -/
def photoPhones (dets : List RawDet) : List RawDet :=
  dets.filter (fun d => photoCategorize (lowerStr d.cls) = .phone)

/-- The photo-mode per-vehicle no-helmet match (`server.py` line 1826):
`iou_val > 0.01 or dist < 250`. -/
def matchNHPhoto (vBBox : BBox) (nh : RawDet) : Bool :=
  1 / 100 < iouQ vBBox nh.bbox
    || pointDistSq (centerOf vBBox) (centerOf nh.bbox) < 250 ^ 2

/-- One iteration of the photo per-vehicle loop (`server.py` lines
1793-1949): one `no_helmet` violation per remaining no-helmet detection that
matches by IoU > 0.01 or center distance < 250; one `triple_riding` when a
triple-named detection (scanned over ALL detected objects) lies within
300 px; one `cell_phone` when a phone-like detection lies within 150 px. -/
def photoPerVehicleEmits (dets noHelmets phones : List RawDet)
    (v : RawDet) : List String :=
  let center := centerOf v.bbox
  let nhMatches := noHelmets.filter (matchNHPhoto v.bbox)
  let triplePresent := dets.any (fun o => isTripleName (lowerStr o.cls)
    && pointDistSq center (centerOf o.bbox) < 300 ^ 2)
  let phoneMatch := phones.any (fun ph =>
    pointDistSq center (centerOf ph.bbox) < 150 ^ 2)
  nhMatches.map (fun _ => "no_helmet")
    ++ (if triplePresent then ["triple_riding"] else [])
    ++ (if phoneMatch then ["cell_phone"] else [])

/-- Continuation of `photoRun`: the two classes-only blocks followed by the
per-vehicle loop (see `photoRun`). -/
def photoRunBody (dets vehicles noHelmets0 phones : List RawDet) :
    List String :=
  let emitA :=
    if !vehicles.isEmpty && !noHelmets0.isEmpty
    then noHelmets0.map (fun _ => "no_helmet") else []
  let noHelmets1 :=
    if !vehicles.isEmpty && !noHelmets0.isEmpty then [] else noHelmets0
  let emitB :=
    if !vehicles.isEmpty && !noHelmets1.isEmpty
    then noHelmets1.map (fun _ => "no_helmet") else []
  let noHelmets2 :=
    if !vehicles.isEmpty && !noHelmets1.isEmpty then [] else noHelmets1
  emitA ++ emitB
    ++ (vehicles.map (photoPerVehicleEmits dets noHelmets2 phones)).flatten

/-- The violation records `process_photo_background` persists for one photo,
as the list of their violation types in insertion order (`server.py` lines
1605-1949):
1. the "classes-only" block (lines 1647-1717): when at least one vehicle-like
   and at least one explicit no-helmet detection exist, insert one
   `no_helmet` violation PER no-helmet detection with no IoU/distance gating,
   then set `no_helmets = []`;
2. a verbatim duplicate of that block (lines 1719-1790), operating on the
   now possibly emptied list;
3. the per-vehicle loop (`photoPerVehicleEmits`) over the surviving
   no-helmet list. -/
def photoRun (dets : List RawDet) : List String :=
  photoRunBody dets (photoVehicles dets) (photoNoHelmets dets)
    (photoPhones dets)

/-! ### The two video frame loops and their error handling
(`server.py` lines 776-1085, `video_processing.py` lines 38-89) -/

/-- One decoded frame of a run, for the error-handling model: whether
`model.track` raises on it, and how many no-helmet-class detections it
yields (the worker's per-frame violation count). -/
structure LoopFrame where
  trackRaises : Bool
  noHelmetDets : ℕ
  deriving DecidableEq, Repr

/-- The worker's frame loop, `video_processing.process_video_file` lines
38-72, starting at frame index `idx` with `FRAME_SKIP = 3`: skipped frames
are written untouched; on a sampled frame `model.track` is wrapped in
`try/except` (lines 49-55) — a detector failure writes the raw frame and
continues.  Returns (frames written, violation count); the function always
returns, it never propagates a frame-level error. -/
def workerLoop (idx : ℕ) : List LoopFrame → ℕ × ℕ
  | [] => (0, 0)
  | f :: rest =>
    let next := workerLoop (idx + 1) rest
    if idx % 3 ≠ 0 then (next.1 + 1, next.2)
    else if f.trackRaises then (next.1 + 1, next.2)
    else (next.1 + 1, next.2 + f.noHelmetDets)

/-- Wrapper `process_video_worker.process_job` around the worker loop: the run
completes and the DB status is set to `completed` whenever
`process_video_file` returns. -/
def workerProcessVideo (frames : List LoopFrame) : String × ℕ × ℕ :=
  ("completed", workerLoop 0 frames)

/-- The server's frame loop status, `process_video_background` lines
776-1085: the `while` loop calls `model.track` (line 789) with NO per-frame
`try/except`; an exception on any sampled frame propagates to the function's
outer handler (lines 1080-1085), which sets the video status to `failed`.
A run whose sampled frames never raise reaches the `completed` update. -/
def serverLoopStatus (idx : ℕ) : List LoopFrame → String
  | [] => "completed"
  | f :: rest =>
    if idx % 3 = 0 && f.trackRaises then "failed"
    else serverLoopStatus (idx + 1) rest

/-! ### Concrete inputs used by counterexamples and witnesses -/

/-- A calibration with a valid 10 m reference over 500 px (`ppm = 50`) and a
calibration-specified speed limit of 40 km/h. -/
def calibWithLimit : Calibration := ⟨some (.num 10), 250000, some 40⟩

/-- User settings with a per-class bike limit of 80 km/h and no global
limit. -/
def usBike80 : UserSettings := ⟨none, some 80, none⟩

/-- A calibration whose stored reference distance is the number `0`
(falsy in Python). -/
def zeroRefCalib : Calibration := ⟨some (.num 0), 10000, some 40⟩

/-- A calibration whose stored reference distance is negative. -/
def negRefCalib : Calibration := ⟨some (.num (-3)), 10000, none⟩

/-- Five positions spanning frames 0..20 with a 500 px displacement along
the x axis (the spec's speed-determinism instance). -/
def fivePositions : List Pos :=
  [⟨0, 0, 0⟩, ⟨125, 0, 5⟩, ⟨250, 0, 10⟩, ⟨375, 0, 15⟩, ⟨500, 0, 20⟩]

/-- A bike-class vehicle detection at the origin. -/
def bikeDetOrigin : RawDet := ⟨"bike", ⟨0, 0, 10, 10⟩, 9 / 10⟩

/-- An explicit no-helmet detection far (≈14 000 px) from the origin:
no box overlap and far beyond every distance threshold. -/
def farNoHelmetDet : RawDet :=
  ⟨"no_helmet", ⟨10000, 10000, 10010, 10010⟩, 9 / 10⟩

/-- A triple-riding-class detection 100 px to the right of the origin
vehicle. -/
def tripleDetNear : RawDet := ⟨"triple_riding", ⟨100, 0, 140, 40⟩, 8 / 10⟩

/-- The frame observation for a tracked bike at the origin whose frame also
contains `tripleDetNear`, as seen inside `process_video_background`
(`tripleScope = none`: the name `detected_objects` is unbound there). -/
def bikeTripleObs : VideoFrameObs :=
  ⟨"bike", ⟨0, 0, 40, 40⟩, 9 / 10, 0,
    [⟨"bike", ⟨0, 0, 40, 40⟩, 9 / 10⟩, tripleDetNear], none⟩

/-- A no-helmet detection exactly on top of the tracked bike below. -/
def nhDetOnBike : RawDet := ⟨"no_helmet", ⟨0, 0, 40, 40⟩, 8 / 10⟩

/-- A frame observation (at frame index `fr`) of a tracked bike overlapped
by `nhDetOnBike` — it satisfies the video no-helmet matching rule. -/
def bikeNHObs (fr : ℚ) : VideoFrameObs :=
  ⟨"bike", ⟨0, 0, 40, 40⟩, 9 / 10, fr, [nhDetOnBike], none⟩

/-- A frame observation of a tracked car overlapped by `nhDetOnBike`. -/
def carNHObs : VideoFrameObs :=
  ⟨"car", ⟨0, 0, 40, 40⟩, 9 / 10, 0, [nhDetOnBike], none⟩

/-! ## Claim C9 — plate cleaning and grammar on `"dl 1 ab 1234"` -/

/-- C9, counterexample.  Cleaning `"dl 1 ab 1234"` does NOT yield
`"DL1AB1234"`: `_clean_plate_text` collapses whitespace runs to a single
space but never deletes internal spaces, so the result is
`"DL 1 AB 1234"`; and that cleaned text does NOT validate against
`^[A-Z]{2}\d{2}[A-Z]{1,2}\d{3,4}$` — after space removal the state code is
followed by a single digit where the grammar requires exactly two (even the
claimed string `"DL1AB1234"` itself fails the grammar). -/
theorem clean_dl1ab1234_refutes_claim :
    cleanPlateText "dl 1 ab 1234" ≠ some "DL1AB1234" ∧
    validateIndianPlateFormat
      ((cleanPlateText "dl 1 ab 1234").getD "") = false ∧
    validateIndianPlateFormat "DL1AB1234" = false := by
  refine ⟨?_, ?_, ?_⟩ <;> decide

/-- C9, amended claim: cleaning the raw OCR text `"dl 1 ab 1234"` yields the
candidate `"DL 1 AB 1234"` (characters outside `[A-Za-z0-9- ]` stripped,
whitespace collapsed to single spaces, uppercased, length ≥ 4), and that
candidate FAILS the canonical plate grammar of 2 letters / 2 digits /
1-2 letters / 3-4 digits because only one digit follows the state code;
a well-formed input such as `"dl 12 ab 1234"` cleans to `"DL 12 AB 1234"`
and does validate. -/
theorem clean_dl1ab1234_amended :
    cleanPlateText "dl 1 ab 1234" = some "DL 1 AB 1234" ∧
    validateIndianPlateFormat "DL 1 AB 1234" = false ∧
    cleanPlateText "dl 12 ab 1234" = some "DL 12 AB 1234" ∧
    validateIndianPlateFormat "DL 12 AB 1234" = true := by
  refine ⟨?_, ?_, ?_, ?_⟩ <;> decide

/-! ## Claim C1 — citation idempotency per violation id -/

/-- C1, counterexample.  Invoking the pipeline path
`create_challan_for_violation` twice with the same violation id persists TWO
challan records: the function runs `db.challans.insert_one` unconditionally,
with no lookup keyed on the violation id. -/
theorem create_challan_twice_two_records :
    challanCountFor
      (createChallanForViolation
        (createChallanForViolation [] "v1" "u1" "no_helmet")
        "v1" "u1" "no_helmet") "v1" = 2 := by
  decide

/-- C1, amended claim: only the on-demand path (`generate_challan`) is a
guarded upsert keyed on (violation id, user id) — invoking it twice is
idempotent, the second invocation being a no-op on the challan collection.
The pipeline path (`create_challan_for_violation`) is NOT guarded: every
invocation appends exactly one new challan record for the given violation
id, so uniqueness there relies on each pipeline violation id being fresh. -/
theorem challan_guarded_only_on_demand :
    (∀ (cs : List ChallanRec) (vid uid vtype : String),
      generateChallanRecord (generateChallanRecord cs vid uid vtype)
          vid uid vtype
        = generateChallanRecord cs vid uid vtype) ∧
    (∀ (cs : List ChallanRec) (vid uid vtype : String),
      challanCountFor (createChallanForViolation cs vid uid vtype) vid
        = challanCountFor cs vid + 1) := by
  constructor
  · intro cs vid uid vtype
    unfold generateChallanRecord
    by_cases h : cs.any
        (fun c => c.violation_id = vid && c.user_id = uid) = true
    · simp [h]
    · simp only [h]
      simp
  · intro cs vid uid vtype
    simp [challanCountFor, createChallanForViolation, List.filter_append]

/-! ## Claim C8 — calibration fallback on invalid reference distance -/

/-- C8, counterexample.  A stored reference distance that is the number `0`
is FALSY, so the guard `if calibration and calibration.get('reference_distance')`
(`server.py` line 755) skips the whole calibration block silently:
`pixels_per_meter` stays at the default 50, but NO anomaly is logged —
contradicting the claim that a zero reference distance logs the anomaly
(only negative or unparsable values reach the warning branches). -/
theorem zero_reference_distance_no_warning :
    (resolveCalibration (some zeroRefCalib)).warned = false ∧
    (resolveCalibration (some zeroRefCalib)).ppmSq = DEFAULT_PPM ^ 2 := by
  constructor
  · rfl
  · rfl

/-- C8, amended claim: for every calibration whose reference distance parses
to a non-positive number or fails to parse, video processing leaves
`pixels_per_meter` at the documented default of 50 px/m and continues; a
warning is logged exactly when the stored value is truthy (negative numbers,
unparsable non-empty values) — a stored numeric zero is falsy and skips the
block silently with no warning.  In every case the measured pixel distance
is divided only by a strictly positive parsed reference distance. -/
theorem calibration_invalid_reference_defaults :
    (∀ (c : Calibration) (rv : RefDistVal),
      c.reference_distance = some rv →
      (refParse rv = none ∨ ∃ q, refParse rv = some q ∧ q ≤ 0) →
      (resolveCalibration (some c)).ppmSq = DEFAULT_PPM ^ 2 ∧
      (resolveCalibration (some c)).warned = refTruthy rv) ∧
    (∀ calib? : Option Calibration,
      (resolveCalibration calib?).ppmSq = DEFAULT_PPM ^ 2 ∨
      ∃ c rv q, calib? = some c ∧ c.reference_distance = some rv ∧
        refTruthy rv = true ∧ refParse rv = some q ∧ 0 < q ∧
        (resolveCalibration calib?).ppmSq = c.pixelPointsDistSq / q ^ 2) := by
  constructor
  · intro c rv href hbad
    by_cases htr : refTruthy rv = true
    · rcases hbad with hnone | ⟨q, hq, hle⟩
      · simp [resolveCalibration, href, htr, hnone]
      · have hq' : ¬ (0 < q) := by linarith
        simp [resolveCalibration, href, htr, hq, hq']
    · simp only [Bool.not_eq_true] at htr
      simp [resolveCalibration, href, htr]
  · intro calib?
    match calib? with
    | none => exact Or.inl rfl
    | some c =>
      match href : c.reference_distance with
      | none =>
        left
        simp [resolveCalibration, href]
      | some rv =>
        by_cases htr : refTruthy rv = true
        · match hp : refParse rv with
          | none =>
            left
            simp [resolveCalibration, href, htr, hp]
          | some q =>
            by_cases hq : 0 < q
            · right
              refine ⟨c, rv, q, rfl, href, htr, hp, hq, ?_⟩
              simp [resolveCalibration, href, htr, hp, hq]
            · left
              simp [resolveCalibration, href, htr, hp, hq]
        · left
          simp only [Bool.not_eq_true] at htr
          simp [resolveCalibration, href, htr]

/-- C8 witness: a calibration whose stored reference distance is the number
`-3` keeps the default `pixels_per_meter` and logs a warning (the value is
truthy). -/
theorem calibration_invalid_reference_defaults_witness :
    (resolveCalibration (some negRefCalib)).ppmSq = DEFAULT_PPM ^ 2 ∧
    (resolveCalibration (some negRefCalib)).warned
      = refTruthy (RefDistVal.num (-3)) :=
  calibration_invalid_reference_defaults.1 negRefCalib (RefDistVal.num (-3))
    rfl (Or.inr ⟨-3, rfl, by norm_num⟩)

/-! ## Claim C4 — frame-level failure containment -/

/-- C4, counterexample.  In `process_video_background` the call
`model.track(frame, ...)` (`server.py` line 789) has no per-frame
`try/except`: a detector failure on a single sampled frame propagates to the
function's outer handler, which sets the video status to `failed` — the run
IS aborted and reported as failed because of that one frame. -/
theorem server_single_frame_failure_fails_run :
    serverLoopStatus 0 [⟨true, 0⟩] = "failed" := by
  decide

/-- C4, amended claim: frame-level containment holds only in the worker
pipeline (`video_processing.process_video_file`): there a detector failure
on one frame is caught, the raw frame is still written, the loop continues,
and the run always completes with every frame written.  In the server
pipeline (`process_video_background`) there is no per-frame handler: the run
is reported `failed` exactly when some sampled (non-skipped) frame's
detector call raises. -/
theorem frame_failures_worker_tolerant_server_fatal :
    (∀ frames : List LoopFrame,
      (workerProcessVideo frames).1 = "completed" ∧
      (workerProcessVideo frames).2.1 = frames.length) ∧
    (∀ (idx : ℕ) (frames : List LoopFrame),
      serverLoopStatus idx frames = "failed" ↔
        ∃ p ∈ List.enumFrom idx frames,
          p.1 % 3 = 0 ∧ p.2.trackRaises = true) := by
  constructor
  · intro frames
    refine ⟨rfl, ?_⟩
    show (workerLoop 0 frames).1 = frames.length
    suffices h : ∀ (idx : ℕ) (fs : List LoopFrame),
        (workerLoop idx fs).1 = fs.length by exact h 0 frames
    intro idx fs
    induction fs generalizing idx with
    | nil => rfl
    | cons f rest ih =>
      simp only [workerLoop, List.length_cons]
      split
      · simpa using ih (idx + 1)
      · split
        · simpa using ih (idx + 1)
        · simpa using ih (idx + 1)
  · intro idx frames
    induction frames generalizing idx with
    | nil =>
      simp only [serverLoopStatus, List.enumFrom]
      constructor
      · intro h
        exact absurd h (by decide)
      · rintro ⟨p, hp, -⟩
        exact absurd hp (List.not_mem_nil p)
    | cons f rest ih =>
      unfold serverLoopStatus
      by_cases h : (idx % 3 = 0 && f.trackRaises) = true
      · rw [if_pos h]
        simp only [Bool.and_eq_true, decide_eq_true_eq] at h
        constructor
        · intro _
          exact ⟨(idx, f), by simp [List.enumFrom], h.1, h.2⟩
        · intro _
          rfl
      · rw [if_neg h]
        rw [ih (idx + 1)]
        simp only [Bool.and_eq_true, decide_eq_true_eq, not_and] at h
        constructor
        · rintro ⟨p, hp, hmod, hraise⟩
          exact ⟨p, by simp [List.enumFrom, hp], hmod, hraise⟩
        · rintro ⟨p, hp, hmod, hraise⟩
          simp only [List.enumFrom, List.mem_cons] at hp
          rcases hp with rfl | hp
          · exact absurd hraise (by simpa using h hmod)
          · exact ⟨p, hp, hmod, hraise⟩

/-! ## Claim C5 — effective overspeeding-limit priority -/

/-- C5, counterexample.  With a calibration speed limit of 40 km/h and a
per-class user bike limit of 80 km/h, the code resolves the effective limit
for a bike to 80 — the per-vehicle-class user setting OVERRIDES the
calibration limit (`bike_limit = user_settings.get('bike_speed_limit',
base_limit)` at `server.py` line 935), the reverse of the claimed priority.
At an estimated speed of 60 km/h (speed² = 3600) the code fires no
overspeeding violation while the claimed resolution would fire one. -/
theorem per_class_limit_overrides_calibration :
    effectiveSpeedLimit (some calibWithLimit) (some usBike80) "bike" = 80 ∧
    claimedSpeedLimit (some calibWithLimit) (some usBike80) "bike" = 40 ∧
    speedTruthyGT (some 3600)
      (effectiveSpeedLimit (some calibWithLimit) (some usBike80) "bike")
      = false ∧
    speedTruthyGT (some 3600)
      (claimedSpeedLimit (some calibWithLimit) (some usBike80) "bike")
      = true := by
  refine ⟨by decide, by decide, by decide, by decide⟩

/-- C5, amended claim: for bike/car classes the effective limit is resolved
by the priority per-vehicle-class user setting (if the key is present) over
the truthy calibration-specified limit, over the global user setting, over
the hardcoded default of 20 km/h; for other classes the calibration limit
takes priority over the global setting and the default.  The limit is
resolved inline at detection time from the run's calibration and user
settings, and the overspeeding violation is emitted on a frame exactly when
the (truthy) estimated speed exceeds that resolved limit and `overspeeding`
is not yet recorded for the track. -/
theorem effective_limit_amended_priority :
    (∀ (calib? : Option Calibration) (us? : Option UserSettings)
        (clsLower : String),
      effectiveSpeedLimit calib? us? clsLower
        = amendedSpeedLimit calib? us? clsLower) ∧
    (∀ (calib? : Option Calibration) (us? : Option UserSettings)
        (ppmSq fps : ℚ) (ts : TrackState) (obs : VideoFrameObs),
      "overspeeding" ∈ (videoTrackStep calib? us? ppmSq fps ts obs).2 ↔
        (speedTruthyGT (trackSpeedSq ts obs ppmSq fps)
            (effectiveSpeedLimit calib? us? (lowerStr obs.cls)) = true ∧
          "overspeeding" ∉ violAfterTriple ts obs)) := by
  constructor
  · intro calib? us? cls
    rcases calib? with _ | ⟨rd, pd, sl⟩
    · rcases us? with _ | ⟨gsl, bsl, csl⟩
      · simp [effectiveSpeedLimit, amendedSpeedLimit]
      · rcases gsl with _ | g <;> rcases bsl with _ | b <;>
          rcases csl with _ | cr <;>
          simp [effectiveSpeedLimit, amendedSpeedLimit] <;>
          split_ifs <;> simp_all
    · rcases sl with _ | q
      · rcases us? with _ | ⟨gsl, bsl, csl⟩
        · simp [effectiveSpeedLimit, amendedSpeedLimit]
        · rcases gsl with _ | g <;> rcases bsl with _ | b <;>
            rcases csl with _ | cr <;>
            simp [effectiveSpeedLimit, amendedSpeedLimit] <;>
            split_ifs <;> simp_all
      · by_cases hq : q = 0 <;>
          [skip; skip] <;>
          (rcases us? with _ | ⟨gsl, bsl, csl⟩
           · simp [effectiveSpeedLimit, amendedSpeedLimit, hq]
           · rcases gsl with _ | g <;> rcases bsl with _ | b <;>
               rcases csl with _ | cr <;>
               simp [effectiveSpeedLimit, amendedSpeedLimit, hq] <;>
               split_ifs <;> simp_all)
  · intro calib? us? ppmSq fps ts obs
    simp only [videoTrackStep, List.mem_append]
    by_cases h1 : nhFires ts obs = true <;>
      by_cases h2 : tripleFires ts obs = true <;>
      by_cases h3 : overspeedFires calib? us? ppmSq fps ts obs = true <;>
      simp_all [overspeedFires]

/-! ## Claim C3 — speed estimation formula and determinism -/

/-- C3: the speed estimator matches the spec formula.  (1) For every
position window of length ≥ 5 with oldest entry `f` and newest entry `l`,
positive `pixels_per_meter` and positive elapsed time, the (nonnegative)
estimated speed `s` — characterised through its square, since the code takes
a square root — equals the Euclidean pixel distance `d` divided by
`pixels_per_meter`, divided by the elapsed time `Δframe / fps`, times 3.6.
(2) With fewer than 5 positions no speed is produced, and (3) a `None` speed
can never fire the overspeeding test `if speed and speed > limit`.  (4) On
the spec's concrete instance — 5 positions spanning 20 frames at fps 25,
`pixels_per_meter` 50, displacement 500 px — the estimated speed is exactly
45 km/h (speed² = 45²). -/
theorem speed_estimator_formula :
    (∀ (ps : List Pos) (f l : Pos) (ppm fps d s : ℚ),
      ps.head? = some f → ps.getLast? = some l → 5 ≤ ps.length →
      0 < ppm → 0 < (l.frame - f.frame) / fps →
      0 ≤ d → d ^ 2 = posDistSq f l →
      0 ≤ s → speedSqKmh ps (ppm ^ 2) fps = some (s ^ 2) →
      s = d / ppm / ((l.frame - f.frame) / fps) * (18 / 5)) ∧
    (∀ (ps : List Pos) (ppmSq fps : ℚ), ps.length < 5 →
      speedSqKmh ps ppmSq fps = none) ∧
    (∀ limit : ℚ, speedTruthyGT none limit = false) ∧
    speedSqKmh fivePositions ((50 : ℚ) ^ 2) 25 = some (45 ^ 2) := by
  refine ⟨?_, ?_, ?_, ?_⟩
  · intro ps f l ppm fps d s hf hl hlen hppm ht hd hd2 hs hsq
    have hppm' : ppm ≠ 0 := ne_of_gt hppm
    have ht' : (l.frame - f.frame) / fps ≠ 0 := ne_of_gt ht
    unfold speedSqKmh at hsq
    rw [if_pos hlen, hf, hl] at hsq
    dsimp only at hsq
    rw [if_pos ht] at hsq
    have hval : posDistSq f l * (18 / 5) ^ 2
        / (ppm ^ 2 * ((l.frame - f.frame) / fps) ^ 2) = s ^ 2 :=
      Option.some.injEq _ _ ▸ hsq
    set e : ℚ := d / ppm / ((l.frame - f.frame) / fps) * (18 / 5) with he
    have hesq : e ^ 2 = s ^ 2 := by
      rw [he, ← hval, ← hd2]
      field_simp
      ring
    have henn : 0 ≤ e := by
      rw [he]
      positivity
    have hmul : s * s = e * e := by
      rw [← pow_two, ← pow_two]
      exact hesq.symm
    rcases mul_self_eq_mul_self_iff.mp hmul with h | h
    · exact h
    · have hse : s = 0 := le_antisymm (by linarith) hs
      rw [hse] at h ⊢
      linarith
  · intro ps ppmSq fps hlen
    unfold speedSqKmh
    rw [if_neg (by omega)]
  · intro limit
    rfl
  · norm_num [speedSqKmh, fivePositions, posDistSq, List.getLast?]

/-- C3 witness: on the spec's concrete instance (`fivePositions`, ppm 50,
fps 25, displacement 500 px, elapsed 20 frames) the estimated speed of
45 km/h equals the claimed formula value `(500/50)/(20/25)·3.6`. -/
theorem speed_estimator_formula_witness :
    (45 : ℚ) = 500 / 50 / (((20 : ℚ) - 0) / 25) * (18 / 5) :=
  speed_estimator_formula.1 fivePositions ⟨0, 0, 0⟩ ⟨500, 0, 20⟩ 50 25 500 45
    rfl rfl (by norm_num [fivePositions]) (by norm_num) (by norm_num)
    (by norm_num) (by norm_num [posDistSq]) (by norm_num)
    (by norm_num [speedSqKmh, fivePositions, posDistSq, List.getLast?])

/-! ## Claim C7 — photo-mode no-helmet matching -/

/-- Helper: when the surviving no-helmet list is empty, one photo
per-vehicle iteration emits no `no_helmet` record (only possibly
`triple_riding` / `cell_phone`). -/
lemma photoPerVehicleEmits_nil_count (dets phones : List RawDet)
    (v : RawDet) :
    (photoPerVehicleEmits dets [] phones v).count "no_helmet" = 0 := by
  simp only [photoPerVehicleEmits, List.filter_nil, List.map_nil,
    List.nil_append]
  split_ifs <;> simp [List.count_append, List.count_cons, List.count_nil]

/-- C7, counterexample.  A photo containing one bike-class detection and one
explicit no-helmet detection roughly 14 000 px away — no bounding-box
overlap (the match predicate is false: IoU ≤ 0.01 and center distance far
above 250 px) — still yields a persisted `no_helmet` violation: the
classes-only block (`server.py` lines 1647-1717) creates one violation per
no-helmet detection whenever ANY vehicle-like detection exists, with no
IoU/distance gating at all. -/
theorem photo_far_no_helmet_still_cited :
    photoRun [bikeDetOrigin, farNoHelmetDet] = ["no_helmet"] ∧
    matchNHPhoto bikeDetOrigin.bbox farNoHelmetDet = false := by
  constructor
  · norm_num [photoRun, photoRunBody, photoPerVehicleEmits, photoVehicles,
      photoNoHelmets, photoPhones, photoCategorize, bikeDetOrigin,
      farNoHelmetDet, isBikeClass, lowerStr, isTripleName, pointDistSq,
      centerOf, matchNHPhoto, iouQ, max_def, min_def]
    decide
  · norm_num [matchNHPhoto, iouQ, pointDistSq, centerOf, bikeDetOrigin,
      farNoHelmetDet, max_def, min_def]

/-- C7, amended claim: in single-photo mode the IoU > 0.01 / 250 px matching
never gates the creation of `no_helmet` violations.  For every photo, the
number of persisted `no_helmet` violations equals the number of explicit
no-helmet detections whenever at least one vehicle-like detection exists
anywhere in the photo (classes-only rule, no geometric gating), and zero
when no vehicle-like detection exists; the per-vehicle IoU/250 px matching
loop only ever sees the emptied no-helmet list and contributes nothing. -/
theorem photo_no_helmet_count_classes_only (dets : List RawDet) :
    (photoRun dets).count "no_helmet"
      = if (photoVehicles dets).isEmpty then 0
        else (photoNoHelmets dets).length := by
  have hPerVehicleZero : ∀ (phones vehicles : List RawDet),
      ((vehicles.map (photoPerVehicleEmits dets [] phones)).flatten).count
        "no_helmet" = 0 := by
    intro phones vehicles
    rw [List.count_eq_zero]
    intro hm
    rw [List.mem_flatten] at hm
    obtain ⟨l, hl, hml⟩ := hm
    rw [List.mem_map] at hl
    obtain ⟨v, -, rfl⟩ := hl
    exact absurd hml
      (List.count_eq_zero.mp (photoPerVehicleEmits_nil_count dets phones v))
  by_cases hv : (photoVehicles dets).isEmpty = true
  · have hv' : photoVehicles dets = [] := by simpa using hv
    simp [photoRun, photoRunBody, hv']
  · by_cases hn : (photoNoHelmets dets).isEmpty = true
    · have hn' : photoNoHelmets dets = [] := by simpa using hn
      simp only [photoRun, photoRunBody, hn', List.isEmpty_nil,
        Bool.not_true, Bool.and_false, if_neg (by simp : ¬ (false = true)),
        List.nil_append]
      rw [hPerVehicleZero]
      simp [hv, hn']
    · have hv2 : (photoVehicles dets).isEmpty = false := by
        simpa using hv
      have hn2 : (photoNoHelmets dets).isEmpty = false := by
        simpa using hn
      simp [photoRun, photoRunBody, hv2, hn2, hPerVehicleZero,
        List.count_append, List.map_const']

/-! ## Claim C2 — per-track no-helmet dedup across frames -/

/-- Helper: a violation type recorded on the track is still recorded after
the frame's step (the recorded set only grows). -/
lemma videoTrackStep_violations_mono (calib? : Option Calibration)
    (us? : Option UserSettings) (ppmSq fps : ℚ) (ts : TrackState)
    (obs : VideoFrameObs) (v : String) (h : v ∈ violAfterNH ts obs) :
    v ∈ (videoTrackStep calib? us? ppmSq fps ts obs).1.violations := by
  simp only [videoTrackStep]
  unfold violAfterTriple
  split_ifs <;> simp [List.mem_append, h]

/-- Helper: the number of `no_helmet` records one step persists is 1 when
the rule fires and 0 otherwise. -/
lemma videoTrackStep_count_nh (calib? : Option Calibration)
    (us? : Option UserSettings) (ppmSq fps : ℚ) (ts : TrackState)
    (obs : VideoFrameObs) :
    (videoTrackStep calib? us? ppmSq fps ts obs).2.count "no_helmet"
      = if nhFires ts obs then 1 else 0 := by
  simp only [videoTrackStep]
  by_cases h1 : nhFires ts obs = true <;>
    by_cases h2 : tripleFires ts obs = true <;>
    by_cases h3 : overspeedFires calib? us? ppmSq fps ts obs = true <;>
    simp [h1, h2, h3, List.count_append]

/-- Helper: once `no_helmet` is recorded on the track, the rule can never
fire again (the dedup gate at `server.py` line 877). -/
lemma nhFires_false_of_recorded (ts : TrackState) (obs : VideoFrameObs)
    (h : "no_helmet" ∈ ts.violations) : nhFires ts obs = false := by
  simp [nhFires, h]

/-- Helper: a run starting from a track that already recorded `no_helmet`
persists zero further `no_helmet` records. -/
lemma videoTrackRun_count_nh_zero (calib? : Option Calibration)
    (us? : Option UserSettings) (ppmSq fps : ℚ) (fs : List VideoFrameObs)
    (ts : TrackState) (h : "no_helmet" ∈ ts.violations) :
    (videoTrackRun calib? us? ppmSq fps ts fs).2.count "no_helmet" = 0 := by
  induction fs generalizing ts with
  | nil => simp [videoTrackRun]
  | cons obs rest ih =>
    simp only [videoTrackRun]
    rw [List.count_append, videoTrackStep_count_nh,
      nhFires_false_of_recorded ts obs h]
    have hmem : "no_helmet"
        ∈ (videoTrackStep calib? us? ppmSq fps ts obs).1.violations := by
      apply videoTrackStep_violations_mono
      unfold violAfterNH
      split_ifs <;> simp [List.mem_append, h]
    simp [ih _ hmem]

/-- C2: for every track of a single video run, if every processed frame of a
non-empty frame sequence independently satisfies the video no-helmet
matching rule for the track (bike-keyword class and a matching explicit
no-helmet detection), the sequential run persists EXACTLY ONE `no_helmet`
Violation record for that track.  Moreover the dedup mark is synchronous
with persistence: whenever a step emits a `no_helmet` record, the track's
recorded violation set already contains `no_helmet` in the state the same
step returns (the check/mark happens inline in the frame loop, before the
record is persisted — the embedded step is a single sequential function, as
`process_video_background` performs it; no async task is involved). -/
theorem no_helmet_recorded_once :
    (∀ (calib? : Option Calibration) (us? : Option UserSettings)
        (ppmSq fps : ℚ) (fs : List VideoFrameObs),
      fs ≠ [] →
      (∀ obs ∈ fs, isBikeClass (lowerStr obs.cls) = true ∧
        (videoNoHelmets obs.frameDets).any (matchNHVideo obs.bbox) = true) →
      (videoTrackRun calib? us? ppmSq fps initTrackState fs).2.count
        "no_helmet" = 1) ∧
    (∀ (calib? : Option Calibration) (us? : Option UserSettings)
        (ppmSq fps : ℚ) (ts : TrackState) (obs : VideoFrameObs),
      "no_helmet" ∈ (videoTrackStep calib? us? ppmSq fps ts obs).2 →
      "no_helmet" ∈ (videoTrackStep calib? us? ppmSq fps ts obs).1.violations) := by
  constructor
  · intro calib? us? ppmSq fps fs hne hall
    cases fs with
    | nil => exact absurd rfl hne
    | cons obs rest =>
      have hobs := hall obs (List.mem_cons_self obs rest)
      have hfire : nhFires initTrackState obs = true := by
        simp [nhFires, initTrackState, hobs.1, hobs.2]
      simp only [videoTrackRun]
      rw [List.count_append, videoTrackStep_count_nh, hfire]
      have hmem : "no_helmet"
          ∈ (videoTrackStep calib? us? ppmSq fps initTrackState obs).1.violations := by
        apply videoTrackStep_violations_mono
        unfold violAfterNH
        rw [hfire]
        simp
      rw [videoTrackRun_count_nh_zero calib? us? ppmSq fps rest _ hmem]
      simp
  · intro calib? us? ppmSq fps ts obs h
    by_cases h1 : nhFires ts obs = true
    · apply videoTrackStep_violations_mono
      unfold violAfterNH
      rw [h1]
      simp
    · exfalso
      simp only [videoTrackStep, List.mem_append] at h
      rcases h with (h | h) | h
      · simp [h1] at h
      · revert h
        split_ifs <;> simp
      · revert h
        split_ifs <;> simp

/-- C2 witness: a concrete two-frame run (frames 0 and 3, each containing a
no-helmet detection directly on the tracked bike) records exactly one
`no_helmet` violation. -/
theorem no_helmet_recorded_once_witness :
    (videoTrackRun none none 2500 25 initTrackState
      [bikeNHObs 0, bikeNHObs 3]).2.count "no_helmet" = 1 :=
  no_helmet_recorded_once.1 none none 2500 25 [bikeNHObs 0, bikeNHObs 3]
    (by simp)
    (by
      intro obs h
      have hsat : ∀ fr : ℚ, isBikeClass (lowerStr (bikeNHObs fr).cls) = true ∧
          (videoNoHelmets (bikeNHObs fr).frameDets).any
            (matchNHVideo (bikeNHObs fr).bbox) = true := by
        intro fr
        constructor
        · simp only [bikeNHObs]
          decide
        · norm_num [videoNoHelmets, bikeNHObs, nhDetOnBike, videoCategorize,
            matchNHVideo, iouQ, pointDistSq, centerOf, max_def, min_def]
          try decide
      rcases List.mem_cons.mp h with rfl | h2
      · exact hsat 0
      · rcases List.mem_cons.mp h2 with rfl | h3
        · exact hsat 3
        · exact absurd h3 (List.not_mem_nil obs))

/-! ## Claim C10 — bike-keyword gating of no-helmet and triple-riding -/

/-- C10: in continuous video mode the no-helmet and triple-riding checks are
gated by the bike-keyword test (`server.py` line 877): a tracked object
whose lowercased class contains none of `bike`/`motor`/`scooter` is never
assigned a `no_helmet` or `triple_riding` violation — only `overspeeding`
can apply.  In particular the classes `car`, `auto` and `vehicle` fail the
bike-keyword test while still being categorised as vehicles when the
frame's detections are collected (`server.py` line 824). -/
theorem non_bike_classes_never_helmet_or_triple :
    (∀ (calib? : Option Calibration) (us? : Option UserSettings)
        (ppmSq fps : ℚ) (ts : TrackState) (obs : VideoFrameObs),
      isBikeClass (lowerStr obs.cls) = false →
      "no_helmet" ∉ (videoTrackStep calib? us? ppmSq fps ts obs).2 ∧
      "triple_riding" ∉ (videoTrackStep calib? us? ppmSq fps ts obs).2) ∧
    (isBikeClass (lowerStr "car") = false ∧
     isBikeClass (lowerStr "auto") = false ∧
     isBikeClass (lowerStr "vehicle") = false) ∧
    (videoCategorize "car" = .vehicles ∧
     videoCategorize "auto" = .vehicles ∧
     videoCategorize "vehicle" = .vehicles) := by
  refine ⟨?_, by refine ⟨?_, ?_, ?_⟩ <;> decide,
    by refine ⟨?_, ?_, ?_⟩ <;> decide⟩
  intro calib? us? ppmSq fps ts obs h
  have h1 : nhFires ts obs = false := by simp [nhFires, h]
  have h2 : tripleFires ts obs = false := by simp [tripleFires, h]
  constructor <;>
    · simp only [videoTrackStep, List.mem_append, h1, h2]
      split_ifs <;> simp_all

/-- C10 witness: a tracked car overlapped by an explicit no-helmet detection
receives neither a `no_helmet` nor a `triple_riding` violation. -/
theorem non_bike_classes_never_helmet_or_triple_witness :
    "no_helmet" ∉ (videoTrackStep none none 2500 25 initTrackState
        carNHObs).2 ∧
    "triple_riding" ∉ (videoTrackStep none none 2500 25 initTrackState
        carNHObs).2 :=
  non_bike_classes_never_helmet_or_triple.1 none none 2500 25 initTrackState
    carNHObs (by simp only [carNHObs]; decide)

/-! ## Claim C6 — triple-riding detection in continuous video mode -/

/-- C6: in continuous video mode the triple-riding rule NEVER fires, even
when an explicit triple-occupancy detection lies within 300 px of a tracked
bike's center.  The loop body at `server.py` line 918 iterates
`detected_objects`, a name `process_video_background` never assigns (it is
local only to the photo and transient-frame functions), so the block raises
`NameError` on every frame; the bare `except: pass` at line 927 swallows it
and no `triple_riding` violation is ever created — contradicting the claim
that the rule fires in video mode.  Concretely: the frame `bikeTripleObs`
carries a detection with a triple class name within 300 px (conjuncts 3-4),
yet no violation at all is emitted for the bike (conjunct 2), and the
triple rule cannot fire from any track state (conjunct 1). -/
theorem video_triple_riding_never_fires :
    (∀ ts : TrackState, tripleFires ts bikeTripleObs = false) ∧
    (videoTrackStep none none 2500 25 initTrackState bikeTripleObs).2 = [] ∧
    isTripleName (lowerStr tripleDetNear.cls) = true ∧
    pointDistSq (centerOf bikeTripleObs.bbox) (centerOf tripleDetNear.bbox)
      < 300 ^ 2 ∧
    bikeTripleObs.tripleScope = none := by
  refine ⟨?_, ?_, by decide, ?_, rfl⟩
  · intro ts
    simp [tripleFires, bikeTripleObs]
  · norm_num [videoTrackStep, nhFires, tripleFires, overspeedFires,
      violAfterNH, violAfterTriple, trackSpeedSq, trackPositions,
      pushBounded, speedSqKmh, speedTruthyGT, effectiveSpeedLimit,
      initTrackState, bikeTripleObs, videoNoHelmets, tripleDetNear,
      videoCategorize, matchNHVideo, iouQ, pointDistSq, centerOf,
      max_def, min_def, isBikeClass, lowerStr]
    decide
  · norm_num [pointDistSq, centerOf, bikeTripleObs, tripleDetNear]

end TrafficWatch
